import Mathlib

/-!
Shallow embedding of the Car Selling API (`src/scripts/main.py`).

The FastAPI handlers are modelled as pure state-passing functions over a
`ServerState` carrying the database tables (`users`, `cars`) and the set of
filenames present in the upload directory (`uploads`).  Each handler takes
the state and its request data and returns the new state together with an
`Except HTTPException response`, mirroring the Python code which either
raises `HTTPException(status_code, detail)` or returns a response model.

External collaborators are modelled as explicit parameters:
  * bcrypt hashing (`passlib`) as an abstract `hash : String → String`
    argument and verification as `verify : String → String → Bool`;
  * `uuid.uuid4()` as explicitly supplied fresh identifier strings;
  * wall-clock time as a `now : Nat` argument (seconds).

JWTs are modelled as their decoded claim set plus a flag recording whether
the token is signed with the server's key (`validSig`); `jwtDecode` mirrors
`jwt.decode`, which verifies the signature first, then the `exp` claim, and
only then hands the payload to the handler.

Pydantic request models with `Optional` fields are modelled with `Option`:
`some v` is a field present in the request, `none` an absent field (this is
what `dict(exclude_unset=True)` and `Form(None)` distinguish; explicit JSON
`null` values are outside the claims considered here).  The Python `float`
price column is modelled as `Rat`: the code stores and returns prices
without ever doing arithmetic on them, so no rounding behaviour is lost.
-/

/-- Model of `fastapi.HTTPException`: status code plus detail string. -/
structure HTTPException where
  status_code : Nat
  detail : String
deriving DecidableEq, Repr

/-- Row of the `users` table (`UserDB` in the source). -/
structure User where
  id : String
  username : String
  email : String
  hashed_password : String
  created_at : Nat
deriving DecidableEq, Repr

/-- Row of the `cars` table (`CarDB` in the source; also the `Car` response
model, whose fields coincide). -/
structure Car where
  id : String
  make : String
  model : String
  year : Int
  price : Rat
  mileage : Int
  description : Option String
  color : String
  fuel_type : String
  transmission : String
  image : String
  seller_id : String
  created_at : Nat
  is_sold : Bool
deriving DecidableEq, Repr

/-- Request body of `POST /register` (`UserCreate`). -/
structure UserCreate where
  username : String
  email : String
  password : String
  confirmed_password : String
deriving DecidableEq, Repr

/-- Request body of `POST /login` and `POST /access-token` (`UserLogin`). -/
structure UserLogin where
  email : String
  password : String
deriving DecidableEq, Repr

/-- Request body of `POST /cars` (`CarCreate`). -/
structure CarCreate where
  make : String
  model : String
  year : Int
  price : Rat
  mileage : Int
  description : Option String
  color : String
  fuel_type : String
  transmission : String
  image : String
deriving DecidableEq, Repr

/-- Request body of `PUT /cars/{car_id}` (`CarUpdate`): every field
optional; a `some` field was supplied in the request, a `none` field was
absent and is excluded by `car_update.dict(exclude_unset=True)`. -/
structure CarUpdate where
  make : Option String := none
  model : Option String := none
  year : Option Int := none
  price : Option Rat := none
  mileage : Option Int := none
  description : Option String := none
  color : Option String := none
  fuel_type : Option String := none
  transmission : Option String := none
  image : Option String := none
  is_sold : Option Bool := none
deriving DecidableEq, Repr

/-- The `CarUpdate` request with no field supplied. -/
def emptyCarUpdate : CarUpdate := {}

/-- Decoded JWT claim set: `sub`, `type` and `exp` as produced by
`create_access_token` / `create_refresh_token` (arbitrary third-party
payloads may lack `sub` or `type`). -/
structure JwtPayload where
  sub : Option String
  type : Option String
  exp : Nat
deriving DecidableEq, Repr

/-- A JWT as presented by a client: its claim set together with whether its
signature verifies against the server's `SECRET_KEY`. -/
structure Jwt where
  payload : JwtPayload
  validSig : Bool
deriving DecidableEq, Repr

/-- Response model `Token`: the access/refresh pair returned by the auth
endpoints. -/
structure Token where
  access_token : Jwt
  refresh_token : Jwt
  token_type : String
deriving DecidableEq, Repr

/-- Response model `UploadResponse` of `POST /upload`. -/
structure UploadResponse where
  filename : String
  url : String
  message : String
deriving DecidableEq, Repr

/-- An uploaded multipart file: client-supplied filename, content type and
payload size in bytes (the byte contents themselves play no role in any
handler beyond their length and being written to disk). -/
structure UploadFile where
  filename : String
  content_type : String
  size : Nat
deriving DecidableEq, Repr

/-- The persistent state a request observes: the two database tables and
the set of filenames present in `UPLOAD_DIR` (`uploads/`). -/
structure ServerState where
  users : List User
  cars : List Car
  uploads : List String
deriving DecidableEq, Repr

/-- Constant `ACCESS_TOKEN_EXPIRE_MINUTES = 10`, in seconds. -/
def ACCESS_TOKEN_EXPIRE_SECONDS : Nat := 10 * 60

/-- Constant `REFRESH_TOKEN_EXPIRE_DAYS = 1`, in seconds. -/
def REFRESH_TOKEN_EXPIRE_SECONDS : Nat := 24 * 60 * 60

/-- Model of `create_access_token({"sub": email}, 10 minutes)`: signs
`{sub, type := "access", exp := now + 10 min}`. -/
def create_access_token (email : String) (now : Nat) : Jwt :=
  { payload := { sub := some email, type := some "access",
                 exp := now + ACCESS_TOKEN_EXPIRE_SECONDS },
    validSig := true }

/-- Model of `create_refresh_token({"sub": email}, 1 day)`: signs
`{sub, type := "refresh", exp := now + 1 day}`. -/
def create_refresh_token (email : String) (now : Nat) : Jwt :=
  { payload := { sub := some email, type := some "refresh",
                 exp := now + REFRESH_TOKEN_EXPIRE_SECONDS },
    validSig := true }

/-- Outcome of `jwt.decode`: signature failure raises a generic
`PyJWTError`, an elapsed `exp` claim raises `ExpiredSignatureError`, and
otherwise the claim set is returned.  PyJWT verifies the signature before
the registered claims, so a token that is both tampered and expired
surfaces as malformed. -/
inductive DecodeResult where
  | malformed
  | expired
  | ok (payload : JwtPayload)
deriving DecidableEq, Repr

/-- Model of `jwt.decode(token, SECRET_KEY, algorithms=[ALGORITHM])` at time `now`. -/
def jwtDecode (t : Jwt) (now : Nat) : DecodeResult :=
  if !t.validSig then .malformed
  else if t.payload.exp < now then .expired
  else .ok t.payload

/-- The `verify_token` dependency: decodes the bearer credential and accepts
only `type = "access"` tokens, returning the subject email. -/
def verify_token (credentials : Jwt) (now : Nat) : Except HTTPException String :=
  match jwtDecode credentials now with
  | .expired => .error ⟨401, "Token expired"⟩
  | .malformed => .error ⟨401, "Could not validate credentials"⟩
  | .ok payload =>
    if payload.type ≠ some "access" then
      .error ⟨401, "Invalid token type"⟩
    else
      match payload.sub with
      | none => .error ⟨401, "Could not validate credentials"⟩
      | some email => .ok email

/-- Query `db.query(UserDB).filter(UserDB.email == email).first()`. -/
def findUserByEmail (users : List User) (email : String) : Option User :=
  users.find? (fun u => u.email == email)

/-- Query `db.query(CarDB).filter(CarDB.id == car_id).first()`. -/
def findCarById (cars : List Car) (car_id : String) : Option Car :=
  cars.find? (fun c => c.id == car_id)

/-- The `get_current_user` dependency: `verify_token` then a lookup of the
subject email in the `users` table. -/
def get_current_user (st : ServerState) (credentials : Jwt) (now : Nat) :
    Except HTTPException User :=
  match verify_token credentials now with
  | .error e => .error e
  | .ok email =>
    match findUserByEmail st.users email with
    | none => .error ⟨401, "User not found"⟩
    | some user => .ok user

/-- Handler of `POST /register`: rejects a taken email (400), then a mismatched
confirmation password (the code raises `HTTP_404_NOT_FOUND` here), then
hashes the password and inserts the new user.  `hash` stands for
`get_password_hash` (bcrypt), `fresh_id` for `str(uuid.uuid4())`, `now`
for the database's `created_at` default. -/
def register (st : ServerState) (user : UserCreate) (hash : String → String)
    (fresh_id : String) (now : Nat) : ServerState × Except HTTPException User :=
  match findUserByEmail st.users user.email with
  | some _ => (st, .error ⟨400, "This email has already registered"⟩)
  | none =>
    if user.password ≠ user.confirmed_password then
      (st, .error ⟨404, "This confirmed password does not match"⟩)
    else
      let db_user : User :=
        { id := fresh_id, username := user.username, email := user.email,
          hashed_password := hash user.password, created_at := now }
      ({ st with users := st.users ++ [db_user] }, .ok db_user)

/-- Handler of `POST /login`: a single branch
`if not db_user or not verify_password(...)` yields one undifferentiated
401 for both a missing email and a failing hash verification; on success a
fresh access/refresh pair is issued.  `verify` stands for
`verify_password` (bcrypt). -/
def login (st : ServerState) (user : UserLogin)
    (verify : String → String → Bool) (now : Nat) : Except HTTPException Token :=
  match findUserByEmail st.users user.email with
  | none => .error ⟨401, "Incorrect Email or password"⟩
  | some db_user =>
    if !(verify user.password db_user.hashed_password) then
      .error ⟨401, "Incorrect Email or password"⟩
    else
      .ok { access_token := create_access_token user.email now,
            refresh_token := create_refresh_token user.email now,
            token_type := "bearer" }

/-- Handler of `POST /access-token`: the source repeats the body of `login` verbatim
("same as login but with different endpoint name"). -/
def get_access_token (st : ServerState) (user : UserLogin)
    (verify : String → String → Bool) (now : Nat) : Except HTTPException Token :=
  match findUserByEmail st.users user.email with
  | none => .error ⟨401, "Incorrect Email or password"⟩
  | some db_user =>
    if !(verify user.password db_user.hashed_password) then
      .error ⟨401, "Incorrect Email or password"⟩
    else
      .ok { access_token := create_access_token user.email now,
            refresh_token := create_refresh_token user.email now,
            token_type := "bearer" }

/-- Handler of `POST /refresh-token`: decodes the refresh token, accepts only
`type = "refresh"`, requires the subject user to exist, then mints a new
pair. -/
def refresh_token (st : ServerState) (tok : Jwt) (now : Nat) :
    Except HTTPException Token :=
  match jwtDecode tok now with
  | .expired => .error ⟨401, "Refresh token expired"⟩
  | .malformed => .error ⟨401, "Could not validate refresh token"⟩
  | .ok payload =>
    if payload.type ≠ some "refresh" then
      .error ⟨401, "Invalid token type"⟩
    else
      match payload.sub with
      | none => .error ⟨401, "Could not validate credentials"⟩
      | some email =>
        match findUserByEmail st.users email with
        | none => .error ⟨401, "User not found"⟩
        | some _ =>
          .ok { access_token := create_access_token email now,
                refresh_token := create_refresh_token email now,
                token_type := "bearer" }

/-- Handler of `POST /cars`: inserts a new listing owned by the authenticated user.
`fresh_id` stands for `str(uuid.uuid4())`, `now` for the database's
`created_at` default; `is_sold` takes the column default `False`.  No
validation of any field is performed. -/
def create_car (st : ServerState) (car : CarCreate) (current_user : User)
    (fresh_id : String) (now : Nat) : ServerState × Car :=
  let db_car : Car :=
    { id := fresh_id, make := car.make, model := car.model, year := car.year,
      price := car.price, mileage := car.mileage,
      description := car.description, color := car.color,
      fuel_type := car.fuel_type, transmission := car.transmission,
      image := car.image, seller_id := current_user.id, created_at := now,
      is_sold := false }
  ({ st with cars := st.cars ++ [db_car] }, db_car)

/-- Handler of `GET /cars/{car_id}`. -/
def get_car (st : ServerState) (car_id : String) : Except HTTPException Car :=
  match findCarById st.cars car_id with
  | none => .error ⟨404, "Car not found"⟩
  | some car => .ok car

/-- The `setattr` loop of `update_car`: overwrite exactly the fields
present in `car_update.dict(exclude_unset=True)`.  `id`, `seller_id` and
`created_at` are not members of `CarUpdate` and can never be touched. -/
def applyCarUpdate (car : Car) (u : CarUpdate) : Car :=
  { car with
    make := u.make.getD car.make,
    model := u.model.getD car.model,
    year := u.year.getD car.year,
    price := u.price.getD car.price,
    mileage := u.mileage.getD car.mileage,
    description := match u.description with
                   | some d => some d
                   | none => car.description,
    color := u.color.getD car.color,
    fuel_type := u.fuel_type.getD car.fuel_type,
    transmission := u.transmission.getD car.transmission,
    image := u.image.getD car.image,
    is_sold := u.is_sold.getD car.is_sold }

/-- Committing a mutated ORM row: the row with the given primary key is
replaced, all others are untouched. -/
def replaceCar (cars : List Car) (car_id : String) (car' : Car) : List Car :=
  cars.map (fun c => if c.id == car_id then car' else c)

/-- Handler of `PUT /cars/{car_id}`: 404 if the listing is absent, 403 if the caller
is not the seller, otherwise the supplied fields are applied and the row
committed. -/
def update_car (st : ServerState) (car_id : String) (car_update : CarUpdate)
    (current_user : User) : ServerState × Except HTTPException Car :=
  match findCarById st.cars car_id with
  | none => (st, .error ⟨404, "Car not found"⟩)
  | some car =>
    if car.seller_id ≠ current_user.id then
      (st, .error ⟨403, "Not authorized to update this car"⟩)
    else
      let car' := applyCarUpdate car car_update
      ({ st with cars := replaceCar st.cars car_id car' }, .ok car')

/-- Handler of `DELETE /cars/{car_id}`: 404 if absent, 403 if the caller is not the
seller, otherwise the row is deleted and a success message returned.  The
handler performs no operation on the upload directory: the listing's image
file is left in place. -/
def delete_car (st : ServerState) (car_id : String) (current_user : User) :
    ServerState × Except HTTPException String :=
  match findCarById st.cars car_id with
  | none => (st, .error ⟨404, "Car not found"⟩)
  | some car =>
    if car.seller_id ≠ current_user.id then
      (st, .error ⟨403, "Not authorized to delete this car"⟩)
    else
      ({ st with cars := st.cars.filter (fun c => !(c.id == car_id)) },
       .ok "Car deleted successfully")

/-- The `allowed_types` list of the upload handlers. -/
def allowed_types : List String :=
  ["image/jpeg", "image/jpg", "image/png", "image/webp"]

/-- Constant `max_size = 5 * 1024 * 1024` (5 MiB). -/
def max_size : Nat := 5 * 1024 * 1024

/-- The final path component of a client-supplied filename (`Path(...)`
keeps only what follows the last slash when taking `.name`). -/
def pathBasename (filename : String) : List Char :=
  ((filename.toList.reverse.takeWhile (fun c => c ≠ '/')).reverse)

/-- Model of `Path(filename).suffix`: the extension of the final component — the
substring from the last dot onward, provided that dot is neither the first
nor the last character of the component; otherwise the suffix is empty. -/
def pathSuffix (filename : String) : String :=
  let name := pathBasename filename
  let tailLen := (name.reverse.takeWhile (fun c => c ≠ '.')).length
  if tailLen = name.length then ""            -- no dot at all
  else
    let i := name.length - tailLen - 1        -- index of the last dot
    if 0 < i ∧ i < name.length - 1 then String.mk (name.drop i) else ""

/-- Python `str.lower()` (ASCII case folding, which covers file
extensions). -/
def strLower (s : String) : String :=
  String.mk (s.data.map Char.toLower)

/-- Computation `file_extension = Path(file.filename).suffix.lower()`, defaulting to
`".jpg"` when empty. -/
def fileExtension (filename : String) : String :=
  let e := strLower (pathSuffix filename)
  if e = "" then ".jpg" else e

/-- Handler of `POST /upload`: rejects an unsupported content type (400) and a payload
over 5 MiB (400); otherwise writes the contents under
`f"{uuid.uuid4()}{file_extension}"` and returns the filename and URL.
`fresh_uuid` stands for `str(uuid.uuid4())`. -/
def upload_car_image (st : ServerState) (file : UploadFile)
    (fresh_uuid : String) : ServerState × Except HTTPException UploadResponse :=
  if ¬ allowed_types.contains file.content_type then
    (st, .error ⟨400, "Invalid file type. Only JPEG, PNG, and WebP images are allowed."⟩)
  else if file.size > max_size then
    (st, .error ⟨400, "File too large. Maximum size is 5MB."⟩)
  else
    let unique_filename := fresh_uuid ++ fileExtension file.filename
    ({ st with uploads := unique_filename :: st.uploads },
     .ok { filename := unique_filename,
           url := "/uploads/" ++ unique_filename,
           message := "Image uploaded successfully" })

/-- Handler of `POST /cars/upload`: the same file validation and naming as `/upload`,
followed by creation of a listing whose `image` is the new asset's URL. -/
def upload_car_with_image (st : ServerState) (car : CarCreate)
    (file : UploadFile) (current_user : User)
    (fresh_uuid fresh_car_id : String) (now : Nat) :
    ServerState × Except HTTPException Car :=
  if ¬ allowed_types.contains file.content_type then
    (st, .error ⟨400, "Invalid file type. Only JPEG, PNG, and WebP images are allowed."⟩)
  else if file.size > max_size then
    (st, .error ⟨400, "File too large. Maximum size is 5MB."⟩)
  else
    let unique_filename := fresh_uuid ++ fileExtension file.filename
    let image_url := "/uploads/" ++ unique_filename
    let db_car : Car :=
      { id := fresh_car_id, make := car.make, model := car.model,
        year := car.year, price := car.price, mileage := car.mileage,
        description := car.description, color := car.color,
        fuel_type := car.fuel_type, transmission := car.transmission,
        image := image_url, seller_id := current_user.id, created_at := now,
        is_sold := false }
    ({ st with uploads := unique_filename :: st.uploads,
               cars := st.cars ++ [db_car] }, .ok db_car)

/-- Handler of `DELETE /upload/{filename}`: 404 when the file is absent, otherwise the
file is unlinked.  The authenticated caller is received but never consulted:
no ownership or reference check precedes the unlink. -/
def delete_car_image (st : ServerState) (filename : String)
    (current_user : User) : ServerState × Except HTTPException String :=
  if ¬ st.uploads.contains filename then
    (st, .error ⟨404, "Image not found"⟩)
  else
    ({ st with uploads := st.uploads.filter (fun n => !(n == filename)) },
     .ok ("Image " ++ filename ++ " deleted successfully"))

/-- Python `str.startswith(pat)`. -/
def pyStartsWith (s pat : String) : Bool :=
  pat.data.isPrefixOf s.data

/-- Left-to-right scan of Python `str.replace`: at each position, if the
(nonempty) pattern matches, emit the replacement and skip the match,
otherwise keep the character.  `fuel` bounds the recursion by the input
length, so the function reduces structurally. -/
def replaceLoop (pat rep : List Char) : Nat → List Char → List Char
  | 0, s => s
  | _ + 1, [] => []
  | fuel + 1, c :: rest =>
    if pat ≠ [] ∧ pat.isPrefixOf (c :: rest) then
      rep ++ replaceLoop pat rep fuel ((c :: rest).drop pat.length)
    else
      c :: replaceLoop pat rep fuel rest

/-- Python `s.replace(pat, rep)`: replaces every occurrence of `pat`. -/
def pyReplace (s pat rep : String) : String :=
  String.mk (replaceLoop pat.data rep.data s.data.length s.data)

/-- The multipart form fields of `PUT /cars/{car_id}/upload`: every field
`Form(None)`, so `some` is a supplied field and `none` an omitted one. -/
structure CarUpdateForm where
  make : Option String := none
  model : Option String := none
  year : Option Int := none
  price : Option Rat := none
  mileage : Option Int := none
  color : Option String := none
  fuel_type : Option String := none
  transmission : Option String := none
  description : Option String := none
  is_sold : Option Bool := none
deriving DecidableEq, Repr

/-- The `update_fields` loop of `update_car_with_image`: each provided
(`is not None`) field is written; `image` is always written with
`image_url`, which is the freshly stored asset's URL when a file was
uploaded and the unchanged `car.image` otherwise. -/
def applyCarUpdateForm (car : Car) (form : CarUpdateForm)
    (image_url : String) : Car :=
  { car with
    make := form.make.getD car.make,
    model := form.model.getD car.model,
    year := form.year.getD car.year,
    price := form.price.getD car.price,
    mileage := form.mileage.getD car.mileage,
    color := form.color.getD car.color,
    fuel_type := form.fuel_type.getD car.fuel_type,
    transmission := form.transmission.getD car.transmission,
    description := match form.description with
                   | some d => some d
                   | none => car.description,
    is_sold := form.is_sold.getD car.is_sold,
    image := image_url }

/-- The externally visible steps `update_car_with_image` performs, in the
order it performs them: writing a new asset file, committing the listing
rows to the database, unlinking an asset file. -/
inductive FsEvent where
  | writeFile (name : String)
  | commitCars (cars : List Car)
  | deleteFile (name : String)
deriving DecidableEq, Repr

/-- Effect of one step on the persistent state. -/
def applyEvent (st : ServerState) : FsEvent → ServerState
  | .writeFile n => { st with uploads := n :: st.uploads }
  | .commitCars cs => { st with cars := cs }
  | .deleteFile n =>
      { st with uploads := st.uploads.filter (fun m => !(m == n)) }

/-- State after a sequence of steps. -/
def runEvents (st : ServerState) (evs : List FsEvent) : ServerState :=
  evs.foldl applyEvent st

/-- Handler of `PUT /cars/{car_id}/upload`, as the ordered list of steps it performs
plus its response.  After the 404/403/validation checks the handler
1. writes the new file (`open(file_path, "wb")`),
2. commits the updated row (`db.commit()`; the new image URL is part of
   the row exactly when a file was uploaded),
3. only then unlinks the old asset — and only if the old `image` was an
   `/uploads/` URL (Python truthiness plus `startswith`) and the old file
   still exists on disk at that moment.
The 500 paths (I/O or commit failure) are crash behaviour outside this
normal-operation model. -/
def update_car_with_image (st : ServerState) (car_id : String)
    (form : CarUpdateForm) (file : Option UploadFile) (fresh_uuid : String)
    (current_user : User) : List FsEvent × Except HTTPException Car :=
  match findCarById st.cars car_id with
  | none => ([], .error ⟨404, "Car not found"⟩)
  | some car =>
    if car.seller_id ≠ current_user.id then
      ([], .error ⟨403, "Not authorized to update this car"⟩)
    else
      match file with
      | none =>
        let car' := applyCarUpdateForm car form car.image
        ([.commitCars (replaceCar st.cars car_id car')], .ok car')
      | some f =>
        if ¬ allowed_types.contains f.content_type then
          ([], .error ⟨400,
            "Invalid file type. Only JPEG, PNG, and WebP images are allowed."⟩)
        else if f.size > max_size then
          ([], .error ⟨400, "File too large. Maximum size is 5MB."⟩)
        else
          let unique_filename := fresh_uuid ++ fileExtension f.filename
          let image_url := "/uploads/" ++ unique_filename
          let car' := applyCarUpdateForm car form image_url
          let evs := [FsEvent.writeFile unique_filename,
                      FsEvent.commitCars (replaceCar st.cars car_id car')]
          if car.image ≠ "" ∧ pyStartsWith car.image "/uploads/" = true then
            let old_filename := pyReplace car.image "/uploads/" ""
            if (unique_filename :: st.uploads).contains old_filename then
              (evs ++ [FsEvent.deleteFile old_filename], .ok car')
            else (evs, .ok car')
          else (evs, .ok car')

/-! ### Sample fixtures used by the witness theorems -/

/-- A registered seller. -/
def userA : User :=
  { id := "u1", username := "alice", email := "alice@x.com",
    hashed_password := "h1", created_at := 0 }

/-- A second registered user, not the seller of `carA`. -/
def userB : User :=
  { id := "u2", username := "bob", email := "bob@x.com",
    hashed_password := "h2", created_at := 0 }

/-- A listing owned by `userA` whose image asset is `uploads/a.jpg`. -/
def carA : Car :=
  { id := "c1", make := "Toyota", model := "Camry", year := 2020,
    price := 25000, mileage := 30000, description := some "well maintained",
    color := "Silver", fuel_type := "Gasoline", transmission := "Automatic",
    image := "/uploads/a.jpg", seller_id := "u1", created_at := 0,
    is_sold := false }

/-- A server state with both users, the one listing and its image file. -/
def stA : ServerState :=
  { users := [userA, userB], cars := [carA], uploads := ["a.jpg"] }

/-- An unexpired refresh token signed with the server's key. -/
def refreshJwtValid : Jwt :=
  { payload := { sub := some "alice@x.com", type := some "refresh",
                 exp := 1000 }, validSig := true }

/-- An unexpired access token signed with the server's key. -/
def accessJwtValid : Jwt :=
  { payload := { sub := some "alice@x.com", type := some "access",
                 exp := 1000 }, validSig := true }

/-- An expired but genuinely signed refresh token. -/
def refreshJwtExpired : Jwt :=
  { payload := { sub := some "alice@x.com", type := some "refresh",
                 exp := 0 }, validSig := true }

/-- A creation request carrying a negative price and negative mileage. -/
def negCarReq : CarCreate :=
  { make := "Lada", model := "2101", year := 1980, price := -1,
    mileage := -5, description := none, color := "blue",
    fuel_type := "petrol", transmission := "manual",
    image := "/uploads/b.jpg" }

/-- A valid PNG upload used when exercising the image-replacement path. -/
def fileNew : UploadFile :=
  { filename := "new.png", content_type := "image/png", size := 100 }

/-! ### Helper lemmas -/

theorem find?_append_of_none {α : Type} (p : α → Bool) (l₁ l₂ : List α)
    (h : l₁.find? p = none) : (l₁ ++ l₂).find? p = l₂.find? p := by
  induction l₁ with
  | nil => rfl
  | cons a l ih =>
    rcases hpa : p a with _ | _
    · rw [List.find?_cons_of_neg _ (by simp [hpa])] at h
      rw [List.cons_append, List.find?_cons_of_neg _ (by simp [hpa])]
      exact ih h
    · rw [List.find?_cons_of_pos _ hpa] at h
      exact absurd h (by simp)

theorem findCarById_replaceCar (cars : List Car) (car_id : String)
    (car car' : Car) (h : findCarById cars car_id = some car)
    (h2 : (car'.id == car_id) = true) :
    findCarById (replaceCar cars car_id car') car_id = some car' := by
  unfold findCarById replaceCar at *
  induction cars with
  | nil => simp at h
  | cons a l ih =>
    rcases ha : (a.id == car_id) with _ | _
    · rw [List.find?_cons_of_neg _ (by simp [ha])] at h
      simpa [List.find?, ha] using ih h
    · simp [List.find?, ha, h2]

/-! ### C1 -/

/-- C1 counterexample: `userA` owns `carA`, whose image asset is
`uploads/a.jpg`; the owner's delete of `carA` succeeds and removes the
listing row, yet the upload directory still contains `a.jpg` afterwards —
no Image Asset removal is triggered at all, contradicting the claim that a
successful owner delete also removes the associated Image Asset. -/
theorem delete_car_keeps_image_asset :
    (delete_car stA "c1" userA).2 = .ok "Car deleted successfully" ∧
    (delete_car stA "c1" userA).1.cars = [] ∧
    carA.image = "/uploads/a.jpg" ∧
    (delete_car stA "c1" userA).1.uploads = ["a.jpg"] := by
  refine ⟨rfl, rfl, rfl, rfl⟩

/-- C1 (amended): a successful owner delete removes exactly the listing
row; the upload directory — and hence the listing's associated Image Asset
— is left untouched (the handler contains no file operation). -/
theorem delete_car_owner_removes_listing_only
    (st : ServerState) (car_id : String) (user : User) (car : Car)
    (hfind : findCarById st.cars car_id = some car)
    (hown : car.seller_id = user.id) :
    delete_car st car_id user =
      ({ st with cars := st.cars.filter (fun c => !(c.id == car_id)) },
       .ok "Car deleted successfully") ∧
    (delete_car st car_id user).1.uploads = st.uploads := by
  refine ⟨by simp [delete_car, hfind, hown], ?_⟩
  simp [delete_car, hfind, hown]

/-- C1 witness: the amended statement evaluated on `stA`. -/
theorem delete_car_owner_removes_listing_only_witness :
    delete_car stA "c1" userA =
      ({ stA with cars := stA.cars.filter (fun c => !(c.id == "c1")) },
       .ok "Car deleted successfully") ∧
    (delete_car stA "c1" userA).1.uploads = stA.uploads :=
  delete_car_owner_removes_listing_only stA "c1" userA carA rfl rfl

/-! ### C2 -/

/-- C2: when the listing exists and the authenticated caller is not its
seller, both `update_car` and `delete_car` fail with 403 Forbidden and
return the state completely unchanged — no field of any listing (nor any
other part of the state) is mutated on this error path. -/
theorem nonowner_update_delete_forbidden
    (st : ServerState) (car_id : String) (u : CarUpdate) (user : User)
    (car : Car) (hfind : findCarById st.cars car_id = some car)
    (hown : car.seller_id ≠ user.id) :
    update_car st car_id u user =
      (st, .error ⟨403, "Not authorized to update this car"⟩) ∧
    delete_car st car_id user =
      (st, .error ⟨403, "Not authorized to delete this car"⟩) := by
  exact ⟨by simp [update_car, hfind, hown], by simp [delete_car, hfind, hown]⟩

/-- C2 witness: `userB` attempting to update or delete `userA`'s listing. -/
theorem nonowner_update_delete_forbidden_witness :
    update_car stA "c1" emptyCarUpdate userB =
      (stA, .error ⟨403, "Not authorized to update this car"⟩) ∧
    delete_car stA "c1" userB =
      (stA, .error ⟨403, "Not authorized to delete this car"⟩) :=
  nonowner_update_delete_forbidden stA "c1" emptyCarUpdate userB carA rfl
    (by decide)

/-! ### C4 -/

/-- C4: registering with `password ≠ confirmed_password` (on a fresh email)
leaves the credential store unchanged, but the handler raises
`HTTP_404_NOT_FOUND`, not the 400 the specification prescribes for a
confirmation mismatch — the claim's "fails with status 400" is contradicted
by the code at this input. -/
theorem register_mismatch_returns_404 :
    register stA { username := "eve", email := "eve@x.com",
                   password := "pw1", confirmed_password := "pw2" }
        (fun p => p) "u3" 0 =
      (stA, .error ⟨404, "This confirmed password does not match"⟩) ∧
    (404 : Nat) ≠ 400 := by
  exact ⟨rfl, by decide⟩

/-! ### C9 -/

/-- C9: the two credential-check failure branches are indistinguishable —
a login for an email with no user, and a login for an existing user whose
password fails hash verification, return the very same
`401 "Incorrect Email or password"` error, so the response never reveals
whether the email is registered; moreover `get_access_token` agrees with
`login` on every input. -/
theorem login_failures_indistinguishable
    (st₁ : ServerState) (r₁ : UserLogin) (v₁ : String → String → Bool)
    (n₁ : Nat) (st₂ : ServerState) (r₂ : UserLogin)
    (v₂ : String → String → Bool) (n₂ : Nat) (u : User)
    (h₁ : findUserByEmail st₁.users r₁.email = none)
    (h₂ : findUserByEmail st₂.users r₂.email = some u)
    (hv : v₂ r₂.password u.hashed_password = false) :
    login st₁ r₁ v₁ n₁ = login st₂ r₂ v₂ n₂ ∧
    login st₁ r₁ v₁ n₁ = .error ⟨401, "Incorrect Email or password"⟩ ∧
    (∀ (st : ServerState) (r : UserLogin) (v : String → String → Bool)
       (n : Nat), get_access_token st r v n = login st r v n) := by
  refine ⟨?_, ?_, fun st r v n => rfl⟩ <;>
    simp [login, h₁, h₂, hv]

/-- C9 witness: an unknown email against an empty store versus a wrong
password for `userA`. -/
theorem login_failures_indistinguishable_witness :
    login { users := [], cars := [], uploads := [] }
        { email := "ghost@x.com", password := "pw" }
        (fun _ _ => false) 0 =
      login stA { email := "alice@x.com", password := "wrong" }
        (fun _ _ => false) 7 ∧
    login { users := [], cars := [], uploads := [] }
        { email := "ghost@x.com", password := "pw" }
        (fun _ _ => false) 0 =
      .error ⟨401, "Incorrect Email or password"⟩ ∧
    (∀ (st : ServerState) (r : UserLogin) (v : String → String → Bool)
       (n : Nat), get_access_token st r v n = login st r v n) :=
  login_failures_indistinguishable
    { users := [], cars := [], uploads := [] }
    { email := "ghost@x.com", password := "pw" } (fun _ _ => false) 0
    stA { email := "alice@x.com", password := "wrong" } (fun _ _ => false) 7
    userA rfl rfl rfl

/-! ### C10 -/

/-- C10: `DELETE /upload/{filename}` deletes any stored file for any
authenticated user: whenever the file exists it is unlinked and the call
succeeds, the listings table is untouched, and the outcome does not depend
on the acting user in any way — no ownership or reference check exists, so
a listing of another user that references the file is left pointing at a
missing asset. -/
theorem delete_image_no_ownership_check
    (st : ServerState) (filename : String) (user : User)
    (hmem : filename ∈ st.uploads) :
    delete_car_image st filename user =
      ({ st with uploads := st.uploads.filter (fun n => !(n == filename)) },
       .ok ("Image " ++ filename ++ " deleted successfully")) ∧
    filename ∉ (delete_car_image st filename user).1.uploads ∧
    (delete_car_image st filename user).1.cars = st.cars ∧
    (∀ user' : User,
       delete_car_image st filename user' = delete_car_image st filename user) := by
  refine ⟨by simp [delete_car_image, hmem], ?_,
    by simp [delete_car_image, hmem], fun user' => rfl⟩
  simp [delete_car_image, hmem, List.mem_filter]

/-- C10 witness: `userB` (who owns nothing referencing it) deletes
`a.jpg`, the asset of `userA`'s listing `carA`. -/
theorem delete_image_no_ownership_check_witness :
    delete_car_image stA "a.jpg" userB =
      ({ stA with uploads := stA.uploads.filter (fun n => !(n == "a.jpg")) },
       .ok ("Image " ++ "a.jpg" ++ " deleted successfully")) ∧
    "a.jpg" ∉ (delete_car_image stA "a.jpg" userB).1.uploads ∧
    (delete_car_image stA "a.jpg" userB).1.cars = stA.cars ∧
    (∀ user' : User,
       delete_car_image stA "a.jpg" user' = delete_car_image stA "a.jpg" userB) :=
  delete_image_no_ownership_check stA "a.jpg" userB (by decide)

/-! ### C3 -/

/-- C3 counterexample: an expired refresh token presented to the
access-token check is rejected, but with the `"Token expired"` error, not
the wrong-token-type error — `jwt.decode` raises on the `exp` claim before
the handler ever compares `type`, so the claim's "fails with WrongTokenType
regardless of expiry" is false. -/
theorem expired_refresh_not_wrong_type_error :
    verify_token refreshJwtExpired 1 = .error ⟨401, "Token expired"⟩ ∧
    (HTTPException.mk 401 "Token expired") ≠ ⟨401, "Invalid token type"⟩ := by
  exact ⟨rfl, by decide⟩

/-- C3 (amended): a token whose `type` claim is wrong for the endpoint is
always rejected — a refresh token never passes the access check and an
access token never passes the refresh endpoint, whatever its signature or
expiry, the rejection being one of the endpoint's 401 errors; and it is
rejected specifically with the `"Invalid token type"` (WrongTokenType)
error when the signature is valid and the token unexpired.  Expired or
badly signed tokens are rejected earlier, with the ExpiredToken or
MalformedToken 401 error. -/
theorem wrong_token_type_rejected (t : Jwt) (now : Nat) (st : ServerState) :
    (t.payload.type = some "refresh" →
      (verify_token t now = .error ⟨401, "Invalid token type"⟩ ∨
       verify_token t now = .error ⟨401, "Token expired"⟩ ∨
       verify_token t now = .error ⟨401, "Could not validate credentials"⟩) ∧
      (t.validSig = true → ¬ t.payload.exp < now →
       verify_token t now = .error ⟨401, "Invalid token type"⟩)) ∧
    (t.payload.type = some "access" →
      (refresh_token st t now = .error ⟨401, "Invalid token type"⟩ ∨
       refresh_token st t now = .error ⟨401, "Refresh token expired"⟩ ∨
       refresh_token st t now = .error ⟨401, "Could not validate refresh token"⟩) ∧
      (t.validSig = true → ¬ t.payload.exp < now →
       refresh_token st t now = .error ⟨401, "Invalid token type"⟩)) := by
  constructor
  · intro hty
    constructor
    · by_cases hv : t.validSig = true
      · by_cases he : t.payload.exp < now
        · right; left; simp [verify_token, jwtDecode, hv, he]
        · left; simp [verify_token, jwtDecode, hv, he, hty]
      · right; right
        simp [verify_token, jwtDecode, Bool.eq_false_iff.mpr hv]
    · intro hv he
      simp [verify_token, jwtDecode, hv, he, hty]
  · intro hty
    constructor
    · by_cases hv : t.validSig = true
      · by_cases he : t.payload.exp < now
        · right; left; simp [refresh_token, jwtDecode, hv, he]
        · left; simp [refresh_token, jwtDecode, hv, he, hty]
      · right; right
        simp [refresh_token, jwtDecode, Bool.eq_false_iff.mpr hv]
    · intro hv he
      simp [refresh_token, jwtDecode, hv, he, hty]

/-- C3 witness: a valid unexpired refresh token fails the access check and
a valid unexpired access token fails the refresh endpoint, both with the
wrong-token-type error. -/
theorem wrong_token_type_rejected_witness :
    verify_token refreshJwtValid 5 = .error ⟨401, "Invalid token type"⟩ ∧
    refresh_token stA accessJwtValid 5 = .error ⟨401, "Invalid token type"⟩ :=
  ⟨((wrong_token_type_rejected refreshJwtValid 5 stA).1 rfl).2 rfl (by decide),
   ((wrong_token_type_rejected accessJwtValid 5 stA).2 rfl).2 rfl (by decide)⟩

/-! ### C5 -/

/-- C5: a partial update by the owner overwrites exactly the supplied
fields.  First part: `applyCarUpdate` leaves `id`, `seller_id` and
`created_at` untouched always, and leaves each updatable field unchanged
whenever it is absent from the request.  Second part: an owner update
supplying only `price` commits `{car with price := p}` — make, model,
year, mileage, description, color, fuel_type, transmission, image,
seller_id, created_at and is_sold all keep their prior value. -/
theorem update_only_supplied_fields
    (st : ServerState) (car_id : String) (user : User) (p : Rat) (car : Car)
    (hfind : findCarById st.cars car_id = some car)
    (hown : car.seller_id = user.id) :
    (∀ u : CarUpdate,
      (applyCarUpdate car u).id = car.id ∧
      (applyCarUpdate car u).seller_id = car.seller_id ∧
      (applyCarUpdate car u).created_at = car.created_at ∧
      (u.make = none → (applyCarUpdate car u).make = car.make) ∧
      (u.model = none → (applyCarUpdate car u).model = car.model) ∧
      (u.year = none → (applyCarUpdate car u).year = car.year) ∧
      (u.price = none → (applyCarUpdate car u).price = car.price) ∧
      (u.mileage = none → (applyCarUpdate car u).mileage = car.mileage) ∧
      (u.description = none →
        (applyCarUpdate car u).description = car.description) ∧
      (u.color = none → (applyCarUpdate car u).color = car.color) ∧
      (u.fuel_type = none → (applyCarUpdate car u).fuel_type = car.fuel_type) ∧
      (u.transmission = none →
        (applyCarUpdate car u).transmission = car.transmission) ∧
      (u.image = none → (applyCarUpdate car u).image = car.image) ∧
      (u.is_sold = none → (applyCarUpdate car u).is_sold = car.is_sold)) ∧
    update_car st car_id { emptyCarUpdate with price := some p } user =
      ({ st with cars := replaceCar st.cars car_id { car with price := p } },
       .ok { car with price := p }) := by
  constructor
  · intro u
    refine ⟨rfl, rfl, rfl, ?_, ?_, ?_, ?_, ?_, ?_, ?_, ?_, ?_, ?_, ?_⟩ <;>
      (intro h; simp [applyCarUpdate, h])
  · simp [update_car, hfind, hown, applyCarUpdate, emptyCarUpdate]

/-- C5 witness: updating only the price of `carA`. -/
theorem update_only_supplied_fields_witness :
    update_car stA "c1" { emptyCarUpdate with price := some 24000 } userA =
      ({ stA with cars := replaceCar stA.cars "c1" { carA with price := 24000 } },
       .ok { carA with price := 24000 }) :=
  (update_only_supplied_fields stA "c1" userA 24000 carA rfl rfl).2

/-! ### C8 -/

/-- C8 counterexample: `create_car` accepts a request with `price = -1`
and `mileage = -5` unconditionally; the stored listing is returned by the
public `GET /cars/{id}` with its negative price and mileage, so the
claimed non-negativity invariant does not hold for reachable listings. -/
theorem negative_price_listing_reachable :
    (create_car stA negCarReq userA "c2" 0).2.price = -1 ∧
    (create_car stA negCarReq userA "c2" 0).2.price < 0 ∧
    (create_car stA negCarReq userA "c2" 0).2.mileage = -5 ∧
    get_car (create_car stA negCarReq userA "c2" 0).1 "c2" =
      .ok (create_car stA negCarReq userA "c2" 0).2 := by
  refine ⟨rfl, by norm_num [create_car, negCarReq], rfl, rfl⟩

/-- C8 (amended): the code performs no validation of `price` or `mileage`
anywhere: `create_car` stores the request's values verbatim (and the
listing is immediately reachable through the public `GET` interface with
those exact values), so a listing's price and mileage are whatever the
requests supplied — including negative values; non-negativity is not an
invariant of the system. -/
theorem create_car_stores_fields_unvalidated
    (st : ServerState) (req : CarCreate) (user : User) (fid : String)
    (now : Nat) (hfresh : findCarById st.cars fid = none) :
    (create_car st req user fid now).2.price = req.price ∧
    (create_car st req user fid now).2.mileage = req.mileage ∧
    get_car (create_car st req user fid now).1 fid =
      .ok (create_car st req user fid now).2 := by
  refine ⟨rfl, rfl, ?_⟩
  unfold get_car findCarById create_car
  unfold findCarById at hfresh
  rw [find?_append_of_none _ _ _ hfresh]
  simp [List.find?]

/-- C8 witness: the amended statement on the concrete negative request. -/
theorem create_car_stores_fields_unvalidated_witness :
    (create_car stA negCarReq userA "c2" 0).2.price = negCarReq.price ∧
    (create_car stA negCarReq userA "c2" 0).2.mileage = negCarReq.mileage ∧
    get_car (create_car stA negCarReq userA "c2" 0).1 "c2" =
      .ok (create_car stA negCarReq userA "c2" 0).2 :=
  create_car_stores_fields_unvalidated stA negCarReq userA "c2" 0 rfl

/-! ### C7 -/

theorem strLower_eq_empty (s : String) (h : strLower s = "") : s = "" := by
  apply String.ext
  have hd := congrArg String.data h
  simpa [strLower] using hd

theorem append_fileExtension_inj (u₁ u₂ f₁ f₂ : String)
    (hlen : u₁.length = u₂.length) (hne : u₁ ≠ u₂) :
    u₁ ++ fileExtension f₁ ≠ u₂ ++ fileExtension f₂ := by
  intro heq
  have hd := congrArg String.data heq
  rw [String.data_append, String.data_append] at hd
  have hl : u₁.data.length = u₂.data.length := hlen
  exact hne (String.ext (List.append_inj hd hl).1)

/-- C7: for every image upload, `POST /upload` rejects a content type
outside `{image/jpeg, image/jpg, image/png, image/webp}` with 400, rejects
a payload strictly larger than 5 MiB with 400, and otherwise stores the
contents under `fresh_uuid ++ ext` where `ext` is the original filename's
extension (lower-cased, as the code lower-cases it) or `".jpg"` when the
original has no extension; names built from distinct UUIDs (equal-length
fresh strings) never collide; and `POST /cars/upload` applies the same two
rejections. -/
theorem upload_validation_and_naming
    (st : ServerState) (file : UploadFile) (fresh_uuid : String) :
    (file.content_type ∉ allowed_types →
      upload_car_image st file fresh_uuid =
        (st, .error ⟨400,
          "Invalid file type. Only JPEG, PNG, and WebP images are allowed."⟩)) ∧
    (file.content_type ∈ allowed_types → file.size > max_size →
      upload_car_image st file fresh_uuid =
        (st, .error ⟨400, "File too large. Maximum size is 5MB."⟩)) ∧
    (file.content_type ∈ allowed_types → file.size ≤ max_size →
      upload_car_image st file fresh_uuid =
        ({ st with uploads :=
             (fresh_uuid ++ fileExtension file.filename) :: st.uploads },
         .ok { filename := fresh_uuid ++ fileExtension file.filename,
               url := "/uploads/" ++ (fresh_uuid ++ fileExtension file.filename),
               message := "Image uploaded successfully" })) ∧
    (pathSuffix file.filename = "" → fileExtension file.filename = ".jpg") ∧
    (pathSuffix file.filename ≠ "" →
      fileExtension file.filename = strLower (pathSuffix file.filename)) ∧
    (∀ u₂ f₂ : String, fresh_uuid.length = u₂.length → fresh_uuid ≠ u₂ →
      fresh_uuid ++ fileExtension file.filename ≠ u₂ ++ fileExtension f₂) ∧
    (∀ (car : CarCreate) (user : User) (cid : String) (now : Nat),
      (file.content_type ∉ allowed_types →
        upload_car_with_image st car file user fresh_uuid cid now =
          (st, .error ⟨400,
            "Invalid file type. Only JPEG, PNG, and WebP images are allowed."⟩)) ∧
      (file.content_type ∈ allowed_types → file.size > max_size →
        upload_car_with_image st car file user fresh_uuid cid now =
          (st, .error ⟨400, "File too large. Maximum size is 5MB."⟩))) := by
  refine ⟨?_, ?_, ?_, ?_, ?_, ?_, ?_⟩
  · intro h; simp [upload_car_image, h]
  · intro h hs; simp [upload_car_image, h, hs, Nat.not_le.mpr hs]
  · intro h hs
    simp [upload_car_image, h, Nat.not_lt.mpr hs]
  · intro h; simp [fileExtension, h, strLower]
  · intro h
    have : strLower (pathSuffix file.filename) ≠ "" := fun hc =>
      h (strLower_eq_empty _ hc)
    simp [fileExtension, this]
  · intro u₂ f₂ hlen hne
    exact append_fileExtension_inj fresh_uuid u₂ file.filename f₂ hlen hne
  · intro car user cid now
    refine ⟨fun h => ?_, fun h hs => ?_⟩
    · simp [upload_car_with_image, h]
    · simp [upload_car_with_image, h, Nat.not_le.mpr hs]

/-- C7 witness: a 10-byte PNG named `photo.PNG` is stored as
`deadbeef.png`; an oversized upload and a GIF are rejected. -/
theorem upload_validation_and_naming_witness :
    upload_car_image stA { filename := "photo.PNG",
                           content_type := "image/png", size := 10 } "deadbeef" =
      ({ stA with uploads := ("deadbeef" ++ fileExtension "photo.PNG") :: stA.uploads },
       .ok { filename := "deadbeef" ++ fileExtension "photo.PNG",
             url := "/uploads/" ++ ("deadbeef" ++ fileExtension "photo.PNG"),
             message := "Image uploaded successfully" }) ∧
    upload_car_image stA { filename := "a.gif",
                           content_type := "image/gif", size := 10 } "deadbeef" =
      (stA, .error ⟨400,
        "Invalid file type. Only JPEG, PNG, and WebP images are allowed."⟩) ∧
    upload_car_image stA { filename := "big.png",
                           content_type := "image/png",
                           size := 5 * 1024 * 1024 + 1 } "deadbeef" =
      (stA, .error ⟨400, "File too large. Maximum size is 5MB."⟩) ∧
    fileExtension "photo.PNG" = ".png" ∧ fileExtension "photo" = ".jpg" :=
  ⟨(upload_validation_and_naming stA
      { filename := "photo.PNG", content_type := "image/png", size := 10 }
      "deadbeef").2.2.1 (by decide) (by decide),
   (upload_validation_and_naming stA
      { filename := "a.gif", content_type := "image/gif", size := 10 }
      "deadbeef").1 (by decide),
   (upload_validation_and_naming stA
      { filename := "big.png", content_type := "image/png",
        size := 5 * 1024 * 1024 + 1 } "deadbeef").2.1 (by decide) (by decide),
   by decide, by decide⟩

/-! ### C6 -/

/-- C6: when an owner update supplies a valid new image and the listing's
current image is a stored `/uploads/` asset, the handler performs exactly
`[writeFile new, commitCars …, deleteFile old]` in that order — the new
asset is written first, the listing's reference is committed to the new
asset second, and only then is the old asset deleted.  Walking that
sequence of steps from any initial state in which the listing's current
asset exists shows that at every intermediate state the listing references
an asset that is present: before the commit it still references the old
asset (still on disk, also right after the write), and from the commit on
it references the new asset, which survives the final deletion of the old
one. -/
theorem image_replacement_write_commit_delete
    (st : ServerState) (car_id : String) (form : CarUpdateForm)
    (f : UploadFile) (fresh_uuid : String) (user : User) (car : Car)
    (old : String)
    (hfind : findCarById st.cars car_id = some car)
    (hown : car.seller_id = user.id)
    (htype : f.content_type ∈ allowed_types)
    (hsize : f.size ≤ max_size)
    (himg : car.image = "/uploads/" ++ old)
    (hstart : pyStartsWith car.image "/uploads/" = true)
    (hrepl : pyReplace car.image "/uploads/" "" = old)
    (hold : old ∈ st.uploads)
    (hne : fresh_uuid ++ fileExtension f.filename ≠ old) :
    let unique := fresh_uuid ++ fileExtension f.filename
    let car' := applyCarUpdateForm car form ("/uploads/" ++ unique)
    let evs := [FsEvent.writeFile unique,
                FsEvent.commitCars (replaceCar st.cars car_id car'),
                FsEvent.deleteFile old]
    update_car_with_image st car_id form (some f) fresh_uuid user =
      (evs, .ok car') ∧
    car'.image = "/uploads/" ++ unique ∧
    (findCarById st.cars car_id = some car ∧ old ∈ st.uploads) ∧
    (findCarById (runEvents st (evs.take 1)).cars car_id = some car ∧
     old ∈ (runEvents st (evs.take 1)).uploads) ∧
    (findCarById (runEvents st (evs.take 2)).cars car_id = some car' ∧
     unique ∈ (runEvents st (evs.take 2)).uploads) ∧
    (findCarById (runEvents st evs).cars car_id = some car' ∧
     unique ∈ (runEvents st evs).uploads) := by
  intro unique car' evs
  have hcar_ne : car.image ≠ "" := by
    intro hc
    rw [hc] at hstart
    exact absurd hstart (by decide)
  have hid : (car.id == car_id) = true := by
    have h' : List.find? (fun c => c.id == car_id) st.cars = some car := hfind
    have h2 := List.find?_some h'
    simpa using h2
  have hid' : (car'.id == car_id) = true := hid
  have hfind' :
      findCarById (replaceCar st.cars car_id car') car_id = some car' :=
    findCarById_replaceCar st.cars car_id car car' hfind hid'
  have hbeq : (unique == old) = false := by
    exact beq_eq_false_iff_ne.mpr hne
  refine ⟨?_, rfl, ⟨hfind, hold⟩, ⟨hfind, List.mem_cons_of_mem _ hold⟩,
    ⟨hfind', List.mem_cons_self _ _⟩, ⟨hfind', ?_⟩⟩
  · unfold update_car_with_image
    rw [hfind]
    simp only [hown, ne_eq, not_true_eq_false, if_false, ite_false]
    have hcontains : ((unique :: st.uploads).contains old) = true := by
      simp [List.mem_cons_of_mem _ hold]
    simp [htype, Nat.not_lt.mpr hsize, hcar_ne, hstart, hrepl, hcontains,
      hold, evs, car', unique]
  · show unique ∈ ((unique :: st.uploads).filter (fun m => !(m == old)))
    simp [List.mem_filter, hbeq]

/-- C6 witness: replacing `carA`'s `a.jpg` with a fresh `deadbeef.png`. -/
theorem image_replacement_write_commit_delete_witness :
    let unique := "deadbeef" ++ fileExtension fileNew.filename
    let car' := applyCarUpdateForm carA {} ("/uploads/" ++ unique)
    let evs := [FsEvent.writeFile unique,
                FsEvent.commitCars (replaceCar stA.cars "c1" car'),
                FsEvent.deleteFile "a.jpg"]
    update_car_with_image stA "c1" {} (some fileNew) "deadbeef" userA =
      (evs, .ok car') ∧
    car'.image = "/uploads/" ++ unique ∧
    (findCarById stA.cars "c1" = some carA ∧ "a.jpg" ∈ stA.uploads) ∧
    (findCarById (runEvents stA (evs.take 1)).cars "c1" = some carA ∧
     "a.jpg" ∈ (runEvents stA (evs.take 1)).uploads) ∧
    (findCarById (runEvents stA (evs.take 2)).cars "c1" = some car' ∧
     unique ∈ (runEvents stA (evs.take 2)).uploads) ∧
    (findCarById (runEvents stA evs).cars "c1" = some car' ∧
     unique ∈ (runEvents stA evs).uploads) :=
  image_replacement_write_commit_delete stA "c1" {} fileNew "deadbeef" userA
    carA "a.jpg" rfl rfl (by decide) (by decide) (by decide) (by decide)
    (by decide) (by decide) (by decide)
